import Mathlib

/-!
Verification of the release fetch-and-cache pipeline in `src/script.js`.

The script is shallowly embedded: JavaScript values become the inductive
type `JSValue`, the browser localStorage becomes an association list from
keys to stored cells, and the asynchronous retry loop of
`fetchLatestRelease` becomes a fuel-indexed recursion that also records an
event trace (fetch attempts and backoff waits) so that temporal claims
about the loop can be stated.

Modelling notes, recorded where they matter:
* Numbers are modelled as `Int` (the script only uses integral
  timestamps, status codes and backoff durations).
* A stored localStorage cell is either `parsed v` (a raw string that
  `JSON.parse` decodes to `v`) or `malformed` (a raw string that fails to
  parse; the empty raw string, which the script rejects with `if (!raw)`
  before parsing, behaves identically and is folded into this case).
* `setCached` stores the decoded form of the serialized entry directly;
  this is exact for payloads produced by `res.json()`, which never contain
  `undefined`.
-/

/-- JavaScript values, as far as the script observes them. -/
inductive JSValue where
  | undefined
  | null
  | bool (b : Bool)
  | num (n : Int)
  | str (s : String)
  | arr (elems : List JSValue)
  | obj (fields : List (String × JSValue))

/-- JavaScript truthiness (`if (x)`, `x || y`). `NaN` does not arise:
numbers are modelled as `Int`. -/
def jsTruthy : JSValue → Bool
  | .undefined => false
  | .null => false
  | .bool b => b
  | .num n => n != 0
  | .str s => s != ""
  | .arr _ => true
  | .obj _ => true

/-- The `typeof x === "object"` test: true for objects, arrays and `null`. -/
def jsTypeofObject : JSValue → Bool
  | .null => true
  | .arr _ => true
  | .obj _ => true
  | _ => false

/-- Property access `x[k]` (and the guarded `x?.k`): field of an object,
`undefined` otherwise. Every unguarded access in the script happens on a
value already checked to be truthy, so modelling the non-object case as
`undefined` agrees with the script on all paths it can reach. -/
def getField : JSValue → String → JSValue
  | .obj fields, k =>
    match fields.find? (fun p => p.1 == k) with
    | some p => p.2
    | none => .undefined
  | _, _ => .undefined

/-- The short-circuiting `a || b`: `a` if truthy, else `b`. -/
def jsOr (a b : JSValue) : JSValue :=
  if jsTruthy a then a else b

/-- Coercion `ToNumber`, used by `Date.now() - ts`. `none` stands for
`NaN`. String coercion is approximated by integral parsing after trimming,
which covers every string the script itself ever writes as a timestamp. -/
def toNumber : JSValue → Option Int
  | .num n => some n
  | .bool b => some (if b then 1 else 0)
  | .null => some 0
  | .undefined => none
  | .str s => if s.trim = "" then some 0 else s.trim.toInt?
  | .arr _ => none
  | .obj _ => none

-- Configuration constants of the script (src/script.js lines 9-13).
def CACHE_TTL_MS : Int := 6 * 60 * 60 * 1000

def MAX_RETRIES : Nat := 2

/-- Cache key namespacing (line 45); the prefixed constant of line 10 is
inlined. -/
def cacheKey (repo : String) : String := "boiler:gh_latest:" ++ repo

/-- A raw string held in localStorage, seen through `safeJsonParse`:
either it decodes to a value or it is garbage (including the empty
string, which `getCached` rejects before parsing). -/
inductive CacheRaw where
  | malformed
  | parsed (v : JSValue)

/-- The localStorage contents: an association list, most recent write
first. -/
def Store := List (String × CacheRaw)

/-- `localStorage.getItem`: `none` models the `null` miss. -/
def getItem (store : Store) (k : String) : Option CacheRaw :=
  match store.find? (fun p => p.1 == k) with
  | some p => some p.2
  | none => none

/-- `localStorage.setItem`: prepending shadows any older entry for the
same key, since `getItem` returns the first match. -/
def setItem (store : Store) (k : String) (v : CacheRaw) : Store :=
  (k, v) :: store

/-- `getCached` (lines 47-59): fresh-path cache read. Returns the `data`
field of the stored entry when the raw value parses to a truthy object
with truthy `ts` and `data` and the entry is within TTL; `none` in every
other case. A truthy non-numeric `ts` makes `Date.now() - ts` evaluate to
`NaN`, the `> TTL` comparison false, and the entry is returned. -/
def getCached (store : Store) (repo : String) (now : Int) : Option JSValue :=
  match getItem store (cacheKey repo) with
  | none => none
  | some .malformed => none
  | some (.parsed o) =>
    if !(jsTruthy o) || !(jsTypeofObject o) then none
    else
      let ts := getField o "ts"
      let data := getField o "data"
      if !(jsTruthy ts) || !(jsTruthy data) then none
      else
        match toNumber ts with
        | some n => if now - n > CACHE_TTL_MS then none else some data
        | none => some data

/-- `setCached` (lines 61-70): best-effort write of `{ts: now, data}`.
The `writeOk` flag models whether the underlying `setItem` throws
(quota, access denial); on failure the exception is swallowed and the
store is unchanged. -/
def setCached (store : Store) (repo : String) (data : JSValue) (now : Int)
    (writeOk : Bool) : Store :=
  if writeOk then
    setItem store (cacheKey repo) (.parsed (.obj [("ts", .num now), ("data", data)]))
  else store

/-- Error thrown by `fetchWithTimeout`: optional HTTP status plus a
message (the `body` field is never inspected by the orchestrator and is
omitted). -/
structure FetchError where
  status : Option Int
  message : String
deriving DecidableEq, Repr

/-- Outcome of one `fetchWithTimeout` call. -/
inductive FetchOutcome where
  | ok (data : JSValue)
  | err (e : FetchError)

def FetchOutcome.isErr : FetchOutcome → Bool
  | .ok _ => false
  | .err _ => true

/-- The rate-limit test of line 123: `err.status === 403 || err.status === 429`. -/
def isRateLimited (e : FetchError) : Bool :=
  e.status == some 403 || e.status == some 429

/-- Observable steps of the retry loop: a network attempt (with its
attempt index) or a backoff sleep (with its duration in ms). -/
inductive Event where
  | fetchAttempt (i : Nat)
  | backoffWait (ms : Nat)
deriving DecidableEq, Repr

def Event.isAttempt : Event → Bool
  | .fetchAttempt _ => true
  | _ => false

/-- Result of the retry loop of lines 113-130: the fetched payload on
success, the running `lastErr`, the (possibly updated) store, and the
trace of attempts and waits. -/
structure LoopOut where
  result : Option JSValue
  lastErr : Option FetchError
  store : Store
  events : List Event

/-- The body of `for (let attempt = 0; attempt <= MAX_RETRIES; attempt++)`
(lines 114-130), with `remaining` counting the iterations still allowed
(the caller passes `MAX_RETRIES + 1`). The fetcher is a map from attempt
index to outcome, so one call models a fixed sequence of network
responses. -/
def retryGo (fetcher : Nat → FetchOutcome) (repo : String) (now : Int)
    (writeOk : Bool) : Nat → Nat → Store → Option FetchError → LoopOut
  | _, 0, store, lastErr => { result := none, lastErr := lastErr, store := store, events := [] }
  | attempt, remaining + 1, store, lastErr =>
    match fetcher attempt with
    | .ok data =>
      { result := some data, lastErr := lastErr,
        store := setCached store repo data now writeOk,
        events := [.fetchAttempt attempt] }
    | .err e =>
      if isRateLimited e then
        { result := none, lastErr := some e, store := store,
          events := [.fetchAttempt attempt] }
      else if attempt < MAX_RETRIES then
        let rest := retryGo fetcher repo now writeOk (attempt + 1) remaining store (some e)
        { rest with
          events := .fetchAttempt attempt :: .backoffWait (400 + attempt * 500) :: rest.events }
      else
        let rest := retryGo fetcher repo now writeOk (attempt + 1) remaining store (some e)
        { rest with events := .fetchAttempt attempt :: rest.events }

/-- The whole retry loop, attempts `0` through `MAX_RETRIES`. -/
def retryLoop (fetcher : Nat → FetchOutcome) (repo : String) (now : Int)
    (writeOk : Bool) (store : Store) : LoopOut :=
  retryGo fetcher repo now writeOk 0 (MAX_RETRIES + 1) store none

/-- The stale-fallback read of lines 134-136: re-read the raw cell
ignoring TTL, return its `data` field if the parsed value and that field
are both truthy. -/
def stalePayload (store : Store) (repo : String) : Option JSValue :=
  match getItem store (cacheKey repo) with
  | some (.parsed v) =>
    if jsTruthy v && jsTruthy (getField v "data") then some (getField v "data")
    else none
  | _ => none

/-- The error thrown on line 138 when no fetch error was recorded. -/
def genericFetchError : FetchError :=
  { status := none, message := "Unknown error fetching release data" }

/-- Result of `fetchLatestRelease`: the returned payload or thrown error,
the final store, and the trace of network attempts and waits. -/
structure FetchResult where
  result : Except FetchError JSValue
  store : Store
  events : List Event

/-- `fetchLatestRelease` (lines 105-139): fresh cache, then the retry
loop, then the stale fallback, then the recorded (or generic) error. -/
def fetchLatestRelease (fetcher : Nat → FetchOutcome) (store : Store)
    (repo : String) (now : Int) (writeOk : Bool) : FetchResult :=
  match getCached store repo now with
  | some cached => { result := .ok cached, store := store, events := [] }
  | none =>
    let out := retryLoop fetcher repo now writeOk store
    match out.result with
    | some data => { result := .ok data, store := out.store, events := out.events }
    | none =>
      match stalePayload out.store repo with
      | some d => { result := .ok d, store := out.store, events := out.events }
      | none =>
        { result := .error (out.lastErr.getD genericFetchError),
          store := out.store, events := out.events }

/-- Per-source normalization options (line 152 destructured parameter). -/
structure NormRule where
  prefer : String
  stripLeadingV : Bool

/-- The `v.trim()` of line 156: strip whitespace from both ends
(JavaScript also strips a few exotic Unicode spaces; the script never
meets them). Implemented over the character list so that it evaluates
inside the kernel. -/
def jsTrim (s : String) : String :=
  String.mk (((s.data.dropWhile Char.isWhitespace).reverse.dropWhile
    Char.isWhitespace).reverse)

/-- The `v.replace(/^v/i, "")` of line 157: drop one leading `v` or `V`. -/
def stripLeadingVMark (s : String) : String :=
  match s.data with
  | c :: rest => if c = 'v' || c = 'V' then String.mk rest else s
  | [] => s

/-- `normalizeVersion` (lines 152-159). -/
def normalizeVersion (release : JSValue) (rule : NormRule) : Option String :=
  if !(jsTruthy release) then none
  else
    let v := jsOr (getField release rule.prefer)
      (jsOr (getField release "tag_name") (jsOr (getField release "name") .null))
    match v with
    | .str s =>
      let t := jsTrim s
      some (if rule.stripLeadingV then stripLeadingVMark t else t)
    | _ => none

/-- `getFirstAssetUrl` (lines 161-166). -/
def getFirstAssetUrl (release : JSValue) : Option String :=
  let assets : List JSValue :=
    match getField release "assets" with
    | .arr xs => xs
    | _ => []
  match assets with
  | [] => none
  | first :: _ =>
    match getField first "browser_download_url" with
    | .str s => if s.length != 0 then some s else none
    | _ => none

/-- First truthy value of a list, `null` if all are falsy: the semantics
of a `a || b || ... || null` chain. -/
def firstTruthy : List JSValue → JSValue
  | [] => .null
  | v :: rest => if jsTruthy v then v else firstTruthy rest

/-- The field-selection rule exactly as the specification words it for
extractVersion: the preferred field is selected whenever it is present
and a string, and fallback to the tag field and then the name field
happens exactly when it is absent or not a string. Stated for comparison
with `normalizeVersion`; the two disagree. -/
def normalizeVersionClaimed (release : JSValue) (rule : NormRule) : Option String :=
  if !(jsTruthy release) then none
  else
    let v : JSValue :=
      match getField release rule.prefer with
      | .str s => .str s
      | _ =>
        match getField release "tag_name" with
        | .str s => .str s
        | _ =>
          match getField release "name" with
          | .str s => .str s
          | _ => .null
    match v with
    | .str s =>
      let t := jsTrim s
      some (if rule.stripLeadingV then stripLeadingVMark t else t)
    | _ => none

/-- What the code actually implements, restated so the fallback
condition is explicit: the first truthy value of the chain is selected;
a selected non-string yields `none` without further fallback. -/
def normalizeVersionAmended (release : JSValue) (rule : NormRule) : Option String :=
  if !(jsTruthy release) then none
  else
    match firstTruthy [getField release rule.prefer,
        getField release "tag_name", getField release "name"] with
    | .str s =>
      let t := jsTrim s
      some (if rule.stripLeadingV then stripLeadingVMark t else t)
    | _ => none

/-- Whether a string begins with a case-insensitive `v` marker. -/
def hasLeadingVMark (s : String) : Bool :=
  match s.data with
  | c :: _ => c = 'v' || c = 'V'
  | [] => false

/-- The specification description of extractPrimaryAssetUrl, stated
directly: the download URL of the first entry of the asset sequence when
that sequence is non-empty and the URL is a non-empty string, absent in
every other case. -/
def getFirstAssetUrlSpec (release : JSValue) : Option String :=
  match getField release "assets" with
  | .arr (first :: _) =>
    match getField first "browser_download_url" with
    | .str s => if s = "" then none else some s
    | _ => none
  | _ => none

/-- The trace of a failing run prefix: attempts `0..k-1`, each followed
by its backoff wait of `400 + j * 500` ms. -/
def genericFailTrace (k : Nat) : List Event :=
  (List.range k).flatMap (fun j => [.fetchAttempt j, .backoffWait (400 + j * 500)])

/-- If a string does not begin with a `v` marker, stripping leaves it
unchanged. -/
theorem stripLeadingVMark_of_no_mark (s : String)
    (h : hasLeadingVMark s = false) : stripLeadingVMark s = s := by
  rcases s with ⟨cs⟩
  rcases cs with _ | ⟨c, rest⟩
  · rfl
  · simp [hasLeadingVMark] at h
    simp [stripLeadingVMark, h.1, h.2]

/-- C1 counterexample: the claim asserts that a present empty-string
preferred field is selected (no fallback) and that a present non-string
preferred value triggers fallback. The code does the opposite on both
counts: with `name = ""` it falls back to `tag_name` and yields "2.0"
where the claimed rule yields "", and with the truthy non-string
`name = 5` it yields absent where the claimed rule falls back to "2.0". -/
theorem normalizeVersion_claim_counterexample :
    normalizeVersion (.obj [("name", .str ""), ("tag_name", .str "v2.0")])
      ⟨"name", true⟩ = some "2.0" ∧
    normalizeVersionClaimed (.obj [("name", .str ""), ("tag_name", .str "v2.0")])
      ⟨"name", true⟩ = some "" ∧
    normalizeVersion (.obj [("name", .num 5), ("tag_name", .str "v2.0")])
      ⟨"name", true⟩ = none ∧
    normalizeVersionClaimed (.obj [("name", .num 5), ("tag_name", .str "v2.0")])
      ⟨"name", true⟩ = some "2.0" := by decide

/-- C1 amended: `normalizeVersion` selects the first truthy value among
the preferred field, the tag field and the name field, in that order; a
falsy preferred value (absent, null, false, zero or the empty string)
triggers fallback, and a selected truthy non-string yields absent with
no further fallback. -/
theorem normalizeVersion_fallback_on_falsy :
    ∀ release rule, normalizeVersion release rule = normalizeVersionAmended release rule :=
  fun _ _ => rfl

/-- C8 counterexample: stripping the leading marker is not idempotent on
every string: a second strip changes "vv5.3.3" again. -/
theorem stripLeadingVMark_not_idempotent :
    stripLeadingVMark "vv5.3.3" = "v5.3.3" ∧
    stripLeadingVMark (stripLeadingVMark "vv5.3.3") = "5.3.3" ∧
    stripLeadingVMark (stripLeadingVMark "vv5.3.3") ≠ stripLeadingVMark "vv5.3.3" := by
  decide

/-- C8 amended: `normalizeVersion` is deterministic, and re-stripping is
identity whenever the once-stripped string does not itself begin with
another case-insensitive `v` marker (in particular on marker-free strings
such as "5.3.3"). -/
theorem normalizeVersion_deterministic_strip_stable :
    (∀ release rule, normalizeVersion release rule = normalizeVersion release rule) ∧
    (∀ s : String, hasLeadingVMark (stripLeadingVMark s) = false →
      stripLeadingVMark (stripLeadingVMark s) = stripLeadingVMark s) :=
  ⟨fun _ _ => rfl, fun _ h => stripLeadingVMark_of_no_mark _ h⟩

/-- Witness for the C8 amended theorem at the specification example
"5.3.3". -/
theorem normalizeVersion_deterministic_strip_stable_witness :
    hasLeadingVMark (stripLeadingVMark "5.3.3") = false ∧
    stripLeadingVMark (stripLeadingVMark "5.3.3") = stripLeadingVMark "5.3.3" :=
  ⟨by decide, normalizeVersion_deterministic_strip_stable.2 "5.3.3" (by decide)⟩

/-- C9: `getFirstAssetUrl` returns the first asset entry URL exactly
when the asset sequence is non-empty and that URL is a non-empty string,
and absent in every other case, as the specification words it. -/
theorem getFirstAssetUrl_eq_spec :
    ∀ release, getFirstAssetUrl release = getFirstAssetUrlSpec release := by
  intro r
  unfold getFirstAssetUrl getFirstAssetUrlSpec
  rcases h : getField r "assets" with _ | _ | _ | _ | _ | xs | _ <;> try rfl
  rcases xs with _ | ⟨f, rest⟩
  · rfl
  · rcases h2 : getField f "browser_download_url" with _ | _ | _ | _ | ⟨_ | ⟨c, cs2⟩⟩ | _ | _ <;>
      simp only [h2] <;> rfl

/-- A well-formed cache entry is returned by the fresh path exactly
within TTL. -/
theorem getCached_entry (store : Store) (repo : String) (now ts : Int) (d : JSValue)
    (hentry : getItem store (cacheKey repo) = some (.parsed (.obj [("ts", .num ts), ("data", d)])))
    (hts : ts ≠ 0) (hd : jsTruthy d = true) :
    getCached store repo now = if now - ts > CACHE_TTL_MS then none else some d := by
  unfold getCached
  rw [hentry]
  have hts2 : (ts != 0) = true := by simpa using hts
  show (if (!(jsTruthy (JSValue.num ts)) || !(jsTruthy d)) = true then none
        else match toNumber (JSValue.num ts) with
          | some n => if now - n > CACHE_TTL_MS then none else some d
          | none => some d) = _
  rw [hd]
  show (if (!(ts != 0) || !true) = true then none
        else if now - ts > CACHE_TTL_MS then none else some d) = _
  rw [hts2]
  rfl

/-- A well-formed entry with truthy payload is returned by the
stale-fallback read, at any age. -/
theorem stalePayload_entry (store : Store) (repo : String) (ts : Int) (d : JSValue)
    (hentry : getItem store (cacheKey repo) = some (.parsed (.obj [("ts", .num ts), ("data", d)])))
    (hd : jsTruthy d = true) :
    stalePayload store repo = some d := by
  unfold stalePayload
  rw [hentry]
  show (if (jsTruthy (JSValue.obj [("ts", .num ts), ("data", d)]) && jsTruthy d) = true
       then some d else none) = some d
  rw [hd]
  rfl

/-- If every fetch attempt fails, any run of the loop body produces no
payload, leaves the store unchanged, and records an error whenever one
was already recorded or at least one iteration remains. -/
theorem retryGo_allErr (fetcher : Nat → FetchOutcome) (repo : String) (now : Int) (w : Bool)
    (hfail : ∀ i, (fetcher i).isErr = true) :
    ∀ (r a : Nat) (store : Store) (le : Option FetchError),
      (retryGo fetcher repo now w a r store le).result = none ∧
      (retryGo fetcher repo now w a r store le).store = store ∧
      (le.isSome = true ∨ r ≠ 0 → (retryGo fetcher repo now w a r store le).lastErr.isSome = true) := by
  intro r
  induction r with
  | zero =>
    intro a store le
    refine ⟨rfl, rfl, ?_⟩
    rintro (hle | hr)
    · simpa [retryGo] using hle
    · exact absurd rfl hr
  | succ n ih =>
    intro a store le
    rcases hf : fetcher a with d | e
    · have := hfail a
      rw [hf] at this
      simp [FetchOutcome.isErr] at this
    · by_cases hrl : isRateLimited e = true
      · simp [retryGo, hf, hrl]
      · simp only [Bool.not_eq_true] at hrl
        by_cases hlt : a < MAX_RETRIES
        · have h3 := ih (a + 1) store (some e)
          simp only [retryGo, hf, hrl, hlt, if_true, if_false]
          exact ⟨h3.1, h3.2.1, fun _ => h3.2.2 (Or.inl rfl)⟩
        · have h3 := ih (a + 1) store (some e)
          simp only [retryGo, hf, hrl, hlt, if_true, if_false]
          exact ⟨h3.1, h3.2.1, fun _ => h3.2.2 (Or.inl rfl)⟩

/-- The whole-loop reading of the previous lemma. -/
theorem retryLoop_allErr (fetcher : Nat → FetchOutcome) (repo : String) (now : Int)
    (w : Bool) (store : Store) (hfail : ∀ i, (fetcher i).isErr = true) :
    (retryLoop fetcher repo now w store).result = none ∧
    (retryLoop fetcher repo now w store).store = store ∧
    (retryLoop fetcher repo now w store).lastErr.isSome = true := by
  have h := retryGo_allErr fetcher repo now w hfail (MAX_RETRIES + 1) 0 store none
  exact ⟨h.1, h.2.1, h.2.2 (Or.inr (Nat.succ_ne_zero _))⟩

/-- On a cache miss with a failing fetcher, the orchestrator returns
whatever the stale read yields. -/
theorem fetchLatestRelease_stale_core (fetcher : Nat → FetchOutcome) (store : Store)
    (repo : String) (now : Int) (w : Bool) (d : JSValue)
    (hmiss : getCached store repo now = none)
    (hstale : stalePayload store repo = some d)
    (hfail : ∀ i, (fetcher i).isErr = true) :
    (fetchLatestRelease fetcher store repo now w).result = .ok d := by
  have hloop := retryLoop_allErr fetcher repo now w store hfail
  simp only [fetchLatestRelease, hloop.1, hloop.2.1, hmiss, hstale]

/-- C2: for every key, if all live fetch attempts fail — including a
rate-limit abort on the very first attempt — but a well-formed cache
entry of any age exists for the key, `fetchLatestRelease` returns that
entry payload instead of failing. -/
theorem fetchLatestRelease_stale_fallback (fetcher : Nat → FetchOutcome) (store : Store)
    (repo : String) (now ts : Int) (d : JSValue) (w : Bool)
    (hentry : getItem store (cacheKey repo) = some (.parsed (.obj [("ts", .num ts), ("data", d)])))
    (hts : ts ≠ 0) (hd : jsTruthy d = true)
    (hfail : ∀ i, (fetcher i).isErr = true) :
    (fetchLatestRelease fetcher store repo now w).result = .ok d := by
  have hc := getCached_entry store repo now ts d hentry hts hd
  by_cases httl : now - ts > CACHE_TTL_MS
  · rw [if_pos httl] at hc
    exact fetchLatestRelease_stale_core fetcher store repo now w d hc
      (stalePayload_entry store repo ts d hentry hd) hfail
  · rw [if_neg httl] at hc
    simp only [fetchLatestRelease, hc]

/-- Witness for C2 at an expired entry and a fetcher that is
rate-limited on its first attempt. -/
theorem fetchLatestRelease_stale_fallback_witness :
    getItem [(cacheKey "r", .parsed (.obj [("ts", .num 1), ("data", .str "old")]))] (cacheKey "r")
      = some (.parsed (.obj [("ts", .num 1), ("data", .str "old")])) ∧
    (1 : Int) ≠ 0 ∧ jsTruthy (.str "old") = true ∧
    (∀ i, ((fun (_ : Nat) => FetchOutcome.err ⟨some 403, "rate limited"⟩) i).isErr = true) ∧
    (fetchLatestRelease (fun _ => .err ⟨some 403, "rate limited"⟩)
      [(cacheKey "r", .parsed (.obj [("ts", .num 1), ("data", .str "old")]))]
      "r" 99999999999 true).result = .ok (.str "old") :=
  ⟨rfl, by decide, rfl, fun _ => rfl,
    fetchLatestRelease_stale_fallback (fun _ => .err ⟨some 403, "rate limited"⟩)
      [(cacheKey "r", .parsed (.obj [("ts", .num 1), ("data", .str "old")]))]
      "r" 99999999999 1 (.str "old") true rfl (by decide) rfl (fun _ => rfl)⟩

/-- C5: a well-formed stored entry within TTL is returned by a lookup
with no network attempt at all; past TTL the fresh-path lookup rejects
it, yet it is still retrievable through the stale-fallback path. -/
theorem cache_freshness_and_expiry (store : Store) (repo : String) (now ts : Int) (d : JSValue)
    (hentry : getItem store (cacheKey repo) = some (.parsed (.obj [("ts", .num ts), ("data", d)])))
    (hts : ts ≠ 0) (hd : jsTruthy d = true) :
    (now - ts ≤ CACHE_TTL_MS →
      ∀ fetcher w, (fetchLatestRelease fetcher store repo now w).result = .ok d ∧
        (fetchLatestRelease fetcher store repo now w).events = []) ∧
    (now - ts > CACHE_TTL_MS →
      getCached store repo now = none ∧
      (∀ fetcher w, (∀ i, (fetcher i).isErr = true) →
        (fetchLatestRelease fetcher store repo now w).result = .ok d)) := by
  have hc := getCached_entry store repo now ts d hentry hts hd
  constructor
  · intro hfresh fetcher w
    rw [if_neg (not_lt.mpr hfresh)] at hc
    constructor <;> simp only [fetchLatestRelease, hc]
  · intro hexp
    rw [if_pos hexp] at hc
    exact ⟨hc, fun fetcher w hfail =>
      fetchLatestRelease_stale_core fetcher store repo now w d hc
        (stalePayload_entry store repo ts d hentry hd) hfail⟩

/-- Witness for C5: the same stored entry is served fresh with no
events at `now = 100`, and at a far later `now` the fresh path rejects
it while the stale path still serves it. -/
theorem cache_freshness_and_expiry_witness :
    getItem [(cacheKey "r", .parsed (.obj [("ts", .num 1), ("data", .str "old")]))] (cacheKey "r")
      = some (.parsed (.obj [("ts", .num 1), ("data", .str "old")])) ∧
    (1 : Int) ≠ 0 ∧ jsTruthy (.str "old") = true ∧
    ((fetchLatestRelease (fun _ => .err ⟨some 500, "server"⟩)
        [(cacheKey "r", .parsed (.obj [("ts", .num 1), ("data", .str "old")]))]
        "r" 100 true).result = .ok (.str "old") ∧
      (fetchLatestRelease (fun _ => .err ⟨some 500, "server"⟩)
        [(cacheKey "r", .parsed (.obj [("ts", .num 1), ("data", .str "old")]))]
        "r" 100 true).events = []) ∧
    getCached [(cacheKey "r", .parsed (.obj [("ts", .num 1), ("data", .str "old")]))]
      "r" 99999999999 = none ∧
    (fetchLatestRelease (fun _ => .err ⟨some 500, "server"⟩)
      [(cacheKey "r", .parsed (.obj [("ts", .num 1), ("data", .str "old")]))]
      "r" 99999999999 true).result = .ok (.str "old") :=
  ⟨rfl, by decide, rfl,
    (cache_freshness_and_expiry
      [(cacheKey "r", .parsed (.obj [("ts", .num 1), ("data", .str "old")]))]
      "r" 100 1 (.str "old") rfl (by decide) rfl).1 (by decide)
      (fun _ => .err ⟨some 500, "server"⟩) true,
    ((cache_freshness_and_expiry
      [(cacheKey "r", .parsed (.obj [("ts", .num 1), ("data", .str "old")]))]
      "r" 99999999999 1 (.str "old") rfl (by decide) rfl).2 (by decide)).1,
    ((cache_freshness_and_expiry
      [(cacheKey "r", .parsed (.obj [("ts", .num 1), ("data", .str "old")]))]
      "r" 99999999999 1 (.str "old") rfl (by decide) rfl).2 (by decide)).2
      (fun _ => .err ⟨some 500, "server"⟩) true (fun _ => rfl)⟩

/-- C6: when all live attempts fail and nothing is stored under the
key, `fetchLatestRelease` fails with a non-null error, namely the last
error the loop recorded. -/
theorem fetchLatestRelease_total_failure (fetcher : Nat → FetchOutcome) (store : Store)
    (repo : String) (now : Int) (w : Bool)
    (hnone : getItem store (cacheKey repo) = none)
    (hfail : ∀ i, (fetcher i).isErr = true) :
    ∃ e, (fetchLatestRelease fetcher store repo now w).result = .error e ∧
      (retryLoop fetcher repo now w store).lastErr = some e := by
  have hmiss : getCached store repo now = none := by unfold getCached; rw [hnone]
  have hloop := retryLoop_allErr fetcher repo now w store hfail
  obtain ⟨e, he⟩ := Option.isSome_iff_exists.mp hloop.2.2
  refine ⟨e, ?_, he⟩
  have hstale : stalePayload store repo = none := by unfold stalePayload; rw [hnone]
  simp only [fetchLatestRelease, hmiss, hloop.1, hloop.2.1, hstale, he, Option.getD_some]

/-- Witness for C6 on an empty store with a generically failing
fetcher. -/
theorem fetchLatestRelease_total_failure_witness :
    getItem ([] : Store) (cacheKey "r") = none ∧
    (∀ i, ((fun (_ : Nat) => FetchOutcome.err ⟨some 500, "server"⟩) i).isErr = true) ∧
    (∃ e, (fetchLatestRelease (fun _ => .err ⟨some 500, "server"⟩) [] "r" 0 true).result
        = .error e ∧
      (retryLoop (fun _ => .err ⟨some 500, "server"⟩) "r" 0 true []).lastErr = some e) :=
  ⟨rfl, fun _ => rfl,
    fetchLatestRelease_total_failure (fun _ => .err ⟨some 500, "server"⟩) [] "r" 0 true
      rfl (fun _ => rfl)⟩

/-- On a cache miss the emitted events are exactly those of the retry
loop, whatever the outcome. -/
theorem fetchLatestRelease_events_of_miss (fetcher : Nat → FetchOutcome) (store : Store)
    (repo : String) (now : Int) (w : Bool)
    (hmiss : getCached store repo now = none) :
    (fetchLatestRelease fetcher store repo now w).events =
      (retryLoop fetcher repo now w store).events := by
  unfold fetchLatestRelease
  rw [hmiss]
  rcases h1 : (retryLoop fetcher repo now w store).result with _ | d
  · rcases h2 : stalePayload (retryLoop fetcher repo now w store).store repo with _ | d2 <;>
      simp [h1, h2]
  · simp [h1]

/-- C4: with no fresh cache entry and a fetcher failing every attempt
with a generic (non-rate-limit) error, exactly `1 + MAX_RETRIES` fetch
attempts are performed. -/
theorem fetchLatestRelease_retry_bound (fetcher : Nat → FetchOutcome) (store : Store)
    (repo : String) (now : Int) (w : Bool) (errf : Nat → FetchError)
    (hfail : ∀ i, fetcher i = .err (errf i))
    (hgen : ∀ i, isRateLimited (errf i) = false)
    (hmiss : getCached store repo now = none) :
    ((fetchLatestRelease fetcher store repo now w).events.countP (fun ev => ev.isAttempt))
      = 1 + MAX_RETRIES := by
  have hev : (retryLoop fetcher repo now w store).events =
      [.fetchAttempt 0, .backoffWait 400, .fetchAttempt 1, .backoffWait 900, .fetchAttempt 2] := by
    simp [retryLoop, retryGo, hfail, hgen, MAX_RETRIES]
  rw [fetchLatestRelease_events_of_miss fetcher store repo now w hmiss, hev]
  rfl

/-- Witness for C4 on an empty store. -/
theorem fetchLatestRelease_retry_bound_witness :
    (∀ i, (fun (_ : Nat) => FetchOutcome.err ⟨some 500, "server"⟩) i
        = FetchOutcome.err ((fun (_ : Nat) => (⟨some 500, "server"⟩ : FetchError)) i)) ∧
    (∀ i, isRateLimited ((fun (_ : Nat) => (⟨some 500, "server"⟩ : FetchError)) i) = false) ∧
    getCached ([] : Store) "r" 0 = none ∧
    ((fetchLatestRelease (fun _ => .err ⟨some 500, "server"⟩) [] "r" 0 true).events.countP
      (fun ev => ev.isAttempt)) = 1 + MAX_RETRIES :=
  ⟨fun _ => rfl, fun _ => rfl, rfl,
    fetchLatestRelease_retry_bound (fun _ => .err ⟨some 500, "server"⟩) [] "r" 0 true
      (fun _ => ⟨some 500, "server"⟩) (fun _ => rfl) (fun _ => rfl) rfl⟩

/-- C3: if the loop reaches attempt `k` and that attempt fails with
status 403 or 429, the event trace ends at attempt `k`: no later
attempt and no backoff wait after it, whatever retry budget remains. -/
theorem retryLoop_rateLimit_shortCircuit (fetcher : Nat → FetchOutcome) (repo : String)
    (now : Int) (w : Bool) (store : Store) (k : Nat) (e : FetchError)
    (hk : k ≤ MAX_RETRIES)
    (hbefore : ∀ j, j < k → ∃ e2, fetcher j = .err e2 ∧ isRateLimited e2 = false)
    (hrl : fetcher k = .err e) (he : isRateLimited e = true) :
    (retryLoop fetcher repo now w store).events = genericFailTrace k ++ [.fetchAttempt k] ∧
    (retryLoop fetcher repo now w store).result = none := by
  have hk2 : k ≤ 2 := hk
  interval_cases k
  · constructor <;> simp [retryLoop, retryGo, hrl, he, genericFailTrace]
  · obtain ⟨e0, h0, g0⟩ := hbefore 0 (by omega)
    constructor
    · simp [retryLoop, retryGo, h0, g0, hrl, he, MAX_RETRIES]
      rfl
    · simp [retryLoop, retryGo, h0, g0, hrl, he, MAX_RETRIES]
  · obtain ⟨e0, h0, g0⟩ := hbefore 0 (by omega)
    obtain ⟨e1, h1, g1⟩ := hbefore 1 (by omega)
    constructor
    · simp [retryLoop, retryGo, h0, g0, h1, g1, hrl, he, MAX_RETRIES]
      rfl
    · simp [retryLoop, retryGo, h0, g0, h1, g1, hrl, he, MAX_RETRIES]

/-- Witness for C3: one generic failure, then a 429 on attempt 1 with a
retry still in budget; the trace stops right after attempt 1. -/
theorem retryLoop_rateLimit_shortCircuit_witness :
    (1 ≤ MAX_RETRIES) ∧
    (∀ j, j < 1 → ∃ e2,
      (fun (i : Nat) => if i = 1 then FetchOutcome.err ⟨some 429, "limit"⟩
                else FetchOutcome.err ⟨some 500, "server"⟩) j = .err e2 ∧
      isRateLimited e2 = false) ∧
    ((fun (i : Nat) => if i = 1 then FetchOutcome.err ⟨some 429, "limit"⟩
               else FetchOutcome.err ⟨some 500, "server"⟩) 1
      = .err ⟨some 429, "limit"⟩) ∧
    isRateLimited ⟨some 429, "limit"⟩ = true ∧
    ((retryLoop (fun (i : Nat) => if i = 1 then .err ⟨some 429, "limit"⟩
        else .err ⟨some 500, "server"⟩) "r" 0 true []).events
      = genericFailTrace 1 ++ [.fetchAttempt 1] ∧
     (retryLoop (fun (i : Nat) => if i = 1 then .err ⟨some 429, "limit"⟩
        else .err ⟨some 500, "server"⟩) "r" 0 true []).result = none) :=
  ⟨by decide,
    fun j hj => by interval_cases j; exact ⟨⟨some 500, "server"⟩, rfl, rfl⟩,
    rfl, rfl,
    retryLoop_rateLimit_shortCircuit
      (fun i => if i = 1 then .err ⟨some 429, "limit"⟩ else .err ⟨some 500, "server"⟩)
      "r" 0 true [] 1 ⟨some 429, "limit"⟩ (by decide)
      (fun j hj => by interval_cases j; exact ⟨⟨some 500, "server"⟩, rfl, rfl⟩)
      rfl rfl⟩

/-- C7: the cache read is total and degrades to absent on a missing,
malformed or structurally invalid entry (falsy value, non-object, falsy
`ts` or `data`, which covers missing fields), and a cache write whose
underlying store rejects it leaves the store unchanged instead of
failing its caller. -/
theorem cache_read_write_total (store : Store) (repo : String) (now : Int) :
    (getItem store (cacheKey repo) = none → getCached store repo now = none) ∧
    (getItem store (cacheKey repo) = some .malformed → getCached store repo now = none) ∧
    (∀ v, getItem store (cacheKey repo) = some (.parsed v) →
      jsTruthy v = false ∨ jsTypeofObject v = false ∨
        jsTruthy (getField v "ts") = false ∨ jsTruthy (getField v "data") = false →
      getCached store repo now = none) ∧
    (∀ d, setCached store repo d now false = store) := by
  refine ⟨?_, ?_, ?_, fun d => rfl⟩
  · intro h; unfold getCached; rw [h]
  · intro h; unfold getCached; rw [h]
  · intro v h hcase
    unfold getCached
    rw [h]
    rcases hcase with h1 | h1 | h1 | h1 <;> simp [h1]

/-- Witness for C7 at a malformed raw cell and a rejected write. -/
theorem cache_read_write_total_witness :
    getItem [(cacheKey "r", CacheRaw.malformed)] (cacheKey "r") = some .malformed ∧
    getCached [(cacheKey "r", CacheRaw.malformed)] "r" 0 = none ∧
    setCached [(cacheKey "r", CacheRaw.malformed)] "r" (.str "x") 0 false
      = [(cacheKey "r", CacheRaw.malformed)] :=
  ⟨rfl, (cache_read_write_total [(cacheKey "r", CacheRaw.malformed)] "r" 0).2.1 rfl,
    (cache_read_write_total [(cacheKey "r", CacheRaw.malformed)] "r" 0).2.2.2 (.str "x")⟩

/-- The fresh-path read only ever returns a truthy payload. -/
theorem getCached_truthy (store : Store) (repo : String) (now : Int) (d : JSValue)
    (h : getCached store repo now = some d) : jsTruthy d = true := by
  unfold getCached at h
  split at h
  · cases h
  · cases h
  · split at h
    · cases h
    · rename_i hguard
      simp only [Bool.or_eq_true, Bool.not_eq_true'] at hguard
      push_neg at hguard
      simp only [] at h
      split at h
      · cases h
      · rename_i hguard2
        simp only [Bool.or_eq_true, Bool.not_eq_true'] at hguard2
        push_neg at hguard2
        split at h
        · split at h
          · cases h
          · injection h with h3
            rw [← h3]
            simpa using hguard2.2
        · injection h with h3
          rw [← h3]
          simpa using hguard2.2

/-- The stale-fallback read only ever returns a truthy payload. -/
theorem stalePayload_truthy (store : Store) (repo : String) (d : JSValue)
    (h : stalePayload store repo = some d) : jsTruthy d = true := by
  unfold stalePayload at h
  split at h
  · split at h
    · rename_i hguard
      injection h with h3
      rw [← h3]
      exact (Bool.and_eq_true _ _ |>.mp hguard).2
    · cases h
  · cases h

/-- C10: both cache read paths require a truthy stored payload, so no
falsy (null, zero, false, empty-string) payload is ever served from the
cache — even though a successful fetch decoding to such a value is
returned and written through to the cache. -/
theorem cache_never_returns_falsy :
    (∀ (store : Store) (repo : String) (now : Int) (d : JSValue),
      getCached store repo now = some d → jsTruthy d = true) ∧
    (∀ (store : Store) (repo : String) (d : JSValue),
      stalePayload store repo = some d → jsTruthy d = true) ∧
    (∀ (fetcher : Nat → FetchOutcome) (store : Store) (repo : String) (now : Int) (d : JSValue),
      fetcher 0 = .ok d → getCached store repo now = none →
      (fetchLatestRelease fetcher store repo now true).result = .ok d ∧
      getItem (fetchLatestRelease fetcher store repo now true).store (cacheKey repo) =
        some (.parsed (.obj [("ts", .num now), ("data", d)]))) := by
  refine ⟨getCached_truthy, stalePayload_truthy, ?_⟩
  intro fetcher store repo now d h0 hmiss
  have hloopdef : retryLoop fetcher repo now true store =
      { result := some d, lastErr := none,
        store := setItem store (cacheKey repo) (.parsed (.obj [("ts", .num now), ("data", d)])),
        events := [.fetchAttempt 0] } := by
    simp [retryLoop, retryGo, h0, MAX_RETRIES, setCached, setItem]
  constructor
  · simp only [fetchLatestRelease, hmiss, hloopdef]
  · simp only [fetchLatestRelease, hmiss, hloopdef]
    simp [getItem, setItem]

/-- Witness for C10: a fetch that decodes to the falsy payload `""` is
returned from the live path and written to the cache. -/
theorem cache_never_returns_falsy_witness :
    ((fun (_ : Nat) => FetchOutcome.ok (.str "")) 0 = FetchOutcome.ok (.str "")) ∧
    getCached ([] : Store) "r" 5 = none ∧
    ((fetchLatestRelease (fun (_ : Nat) => .ok (.str "")) [] "r" 5 true).result
        = .ok (.str "") ∧
      getItem (fetchLatestRelease (fun (_ : Nat) => .ok (.str "")) [] "r" 5 true).store
        (cacheKey "r") = some (.parsed (.obj [("ts", .num 5), ("data", .str "")]))) :=
  ⟨rfl, rfl,
    cache_never_returns_falsy.2.2 (fun (_ : Nat) => .ok (.str "")) [] "r" 5 (.str "") rfl rfl⟩
